import Mathlib

/-!
Prepared statements of `ddb` (`src/classes/statement.cpp`)

A shallow embedding of the `Statement` class: a wrapper around a compiled
SQLite query.  The SQLite library is external to the repository, so it is an
explicit parameter of every method: an `Engine` gives the reply of each
`sqlite3_*` function as a function of the calls made so far, and every call
a method makes is appended to a `Trace`.  A method of the class becomes a
function from the object and the trace before the call to a `Result`: how the
call ended, the object afterwards and the trace afterwards.

The `assert` calls are taken as compiled in: a failed assertion ends the call
(and the process) before anything else happens.  The `LOGD` trace lines of
the constructor and the destructor are diagnostics only and are not part of
the embedding.
-/

namespace DDB

/-! ## Result codes of `sqlite3.h` -/

/-- Successful result of `sqlite3.h`. -/
def SQLITE_OK : Int := 0
/-- Generic error of `sqlite3.h`. -/
def SQLITE_ERROR : Int := 1
/-- The database file is locked (`sqlite3.h`). -/
def SQLITE_BUSY : Int := 5
/-- Library used incorrectly (`sqlite3.h`). -/
def SQLITE_MISUSE : Int := 21
/-- Second parameter of `sqlite3_bind` out of range (`sqlite3.h`). -/
def SQLITE_RANGE : Int := 25
/-- The step has another row ready (`sqlite3.h`). -/
def SQLITE_ROW : Int := 100
/-- The step has finished executing (`sqlite3.h`). -/
def SQLITE_DONE : Int := 101

/-! ## The engine boundary -/

/-- One call into the SQLite library.  A statement handle (`sqlite3_stmt*`)
that is not null is a natural number; the connection (`sqlite3*`) may be
null. -/
inductive Call where
  | prepare_v2 (db : Option Nat) (query : String)
  | bind_text (stmt : Nat) (paramNum : Int) (value : String)
  | bind_int (stmt : Nat) (paramNum : Int) (value : Int)
  | bind_int64 (stmt : Nat) (paramNum : Int) (value : Int)
  | step (stmt : Nat)
  | column_int (stmt : Nat) (columnId : Int)
  | column_int64 (stmt : Nat) (columnId : Int)
  | column_text (stmt : Nat) (columnId : Int)
  | reset (stmt : Nat)
  | clear_bindings (stmt : Nat)
  | finalize (stmt : Nat)
  deriving DecidableEq, Repr

/-- The calls made into the library so far, oldest first. -/
abbrev Trace := List Call

/-- The replies of the SQLite library.  Each reply may depend on every call
made before it.  `sqlite3_prepare_v2` gives a result code and the handle it
stored in its out parameter; `sqlite3_column_text` gives a pointer that is
null (`none`) or points at a C string. -/
structure Engine where
  sqlite3_prepare_v2 : Trace → Option Nat → String → Int × Option Nat
  sqlite3_bind_text : Trace → Nat → Int → String → Int
  sqlite3_bind_int : Trace → Nat → Int → Int → Int
  sqlite3_bind_int64 : Trace → Nat → Int → Int → Int
  sqlite3_step : Trace → Nat → Int
  sqlite3_column_int : Trace → Nat → Int → Int
  sqlite3_column_int64 : Trace → Nat → Int → Int
  sqlite3_column_text : Trace → Nat → Int → Option String
  sqlite3_reset : Trace → Nat → Int
  sqlite3_clear_bindings : Trace → Nat → Int

/-! ## The object and the ways a call can end -/

/-- The data members of `Statement`. -/
structure Statement where
  db : Option Nat
  query : String
  stmt : Option Nat
  hasRow : Bool
  done : Bool
  deriving DecidableEq, Repr

/-- How a call of a method ends: it returns a value, it throws one of the
two exception classes of `exceptions.h`, an `assert` fails, or it runs into
undefined behaviour. -/
inductive Outcome (α : Type) where
  | ret (value : α)
  | SQLException (what : String)
  | DBException (what : String)
  | assertFailed
  | undefinedBehaviour
  deriving DecidableEq, Repr

/-- The call ended by throwing an exception. -/
def Outcome.threw {α : Type} : Outcome α → Bool
  | .SQLException _ => true
  | .DBException _ => true
  | _ => false

/-- The call ended the whole process: a failed `assert` or undefined
behaviour. -/
def Outcome.crashed {α : Type} : Outcome α → Bool
  | .assertFailed => true
  | .undefinedBehaviour => true
  | _ => false

/-- What a method call leaves behind: its outcome, the object after the
call and the trace after the call. -/
structure Result (α : Type) where
  outcome : Outcome α
  self : Statement
  trace : Trace
  deriving DecidableEq, Repr

/-- An object of class `Statement`, seen from its client: within its
lifetime, with its data members, or after its destructor has run.  After
the destructor the lifetime is over and the `std::string` member `query` has
been destroyed; `members` then records the values the destructor body left
behind, and every further call on the object, a second destructor call
included, is undefined behaviour. -/
inductive Object where
  | alive (members : Statement)
  | destroyed (members : Statement)
  deriving DecidableEq, Repr

/-- The member values of an object, for a destroyed one those the
destructor body left behind. -/
def Object.members : Object → Statement
  | Object.alive s => s
  | Object.destroyed s => s

/-! ## The methods of `Statement` -/

/-- The constructor `Statement::Statement(db, query)`: prepares the query
and starts with both cursor flags false. -/
def Statement.construct (E : Engine) (db : Option Nat) (query : String) (t : Trace) :
    Outcome Statement × Trace :=
  let r := E.sqlite3_prepare_v2 t db query
  let t1 := t ++ [Call.prepare_v2 db query]
  if r.1 ≠ SQLITE_OK then
    (Outcome.SQLException ("Cannot prepare SQL statement: " ++ query), t1)
  else
    (Outcome.ret { db := db, query := query, stmt := r.2, hasRow := false, done := false }, t1)

/-- The method `Statement::bindCheck(ret)`: throws unless `ret` is
`SQLITE_OK`. -/
def Statement.bindCheck (s : Statement) (ret : Int) : Outcome Unit :=
  if ret ≠ SQLITE_OK then
    Outcome.SQLException
      ("Failed binding values for " ++ s.query ++ " (error code: " ++ toString ret ++ ")")
  else
    Outcome.ret ()

/-- The destructor `Statement::~Statement()`.  On an object within its
lifetime the body finalizes the handle if it is present and sets it to null;
then the members are destroyed and the lifetime of the object ends.  On an
object whose destructor has already run the call is undefined behaviour (the
string member would be destroyed a second time). -/
def Statement.destroy : Object → Trace → Outcome Unit × Object × Trace
  | Object.alive s, t =>
    match s.stmt with
    | some h => (Outcome.ret (), Object.destroyed { s with stmt := none }, t ++ [Call.finalize h])
    | none => (Outcome.ret (), Object.destroyed s, t)
  | Object.destroyed s, t => (Outcome.undefinedBehaviour, Object.destroyed s, t)

/-- The overload `Statement::bind(int, const std::string &)`. -/
def Statement.bindText (E : Engine) (paramNum : Int) (value : String)
    (s : Statement) (t : Trace) : Result Statement :=
  match s.stmt, s.db with
  | some h, some _ =>
    let t1 := t ++ [Call.bind_text h paramNum value]
    match s.bindCheck (E.sqlite3_bind_text t h paramNum value) with
    | Outcome.ret _ => ⟨Outcome.ret s, s, t1⟩
    | Outcome.SQLException w => ⟨Outcome.SQLException w, s, t1⟩
    | Outcome.DBException w => ⟨Outcome.DBException w, s, t1⟩
    | Outcome.assertFailed => ⟨Outcome.assertFailed, s, t1⟩
    | Outcome.undefinedBehaviour => ⟨Outcome.undefinedBehaviour, s, t1⟩
  | _, _ => ⟨Outcome.assertFailed, s, t⟩

/-- The overload `Statement::bind(int, int)`. -/
def Statement.bindInt (E : Engine) (paramNum : Int) (value : Int)
    (s : Statement) (t : Trace) : Result Statement :=
  match s.stmt, s.db with
  | some h, some _ =>
    let t1 := t ++ [Call.bind_int h paramNum value]
    match s.bindCheck (E.sqlite3_bind_int t h paramNum value) with
    | Outcome.ret _ => ⟨Outcome.ret s, s, t1⟩
    | Outcome.SQLException w => ⟨Outcome.SQLException w, s, t1⟩
    | Outcome.DBException w => ⟨Outcome.DBException w, s, t1⟩
    | Outcome.assertFailed => ⟨Outcome.assertFailed, s, t1⟩
    | Outcome.undefinedBehaviour => ⟨Outcome.undefinedBehaviour, s, t1⟩
  | _, _ => ⟨Outcome.assertFailed, s, t⟩

/-- The overload `Statement::bind(int, long long)`. -/
def Statement.bindInt64 (E : Engine) (paramNum : Int) (value : Int)
    (s : Statement) (t : Trace) : Result Statement :=
  match s.stmt, s.db with
  | some h, some _ =>
    let t1 := t ++ [Call.bind_int64 h paramNum value]
    match s.bindCheck (E.sqlite3_bind_int64 t h paramNum value) with
    | Outcome.ret _ => ⟨Outcome.ret s, s, t1⟩
    | Outcome.SQLException w => ⟨Outcome.SQLException w, s, t1⟩
    | Outcome.DBException w => ⟨Outcome.DBException w, s, t1⟩
    | Outcome.assertFailed => ⟨Outcome.assertFailed, s, t1⟩
    | Outcome.undefinedBehaviour => ⟨Outcome.undefinedBehaviour, s, t1⟩
  | _, _ => ⟨Outcome.assertFailed, s, t⟩

/-- The method `Statement::step()`: one call of `sqlite3_step` and a
`switch` on its code. -/
def Statement.step (E : Engine) (s : Statement) (t : Trace) : Result Statement :=
  match s.stmt with
  | none => ⟨Outcome.assertFailed, s, t⟩
  | some h =>
    let code := E.sqlite3_step t h
    let t1 := t ++ [Call.step h]
    if code = SQLITE_DONE then
      let s1 := { s with done := true, hasRow := false }
      ⟨Outcome.ret s1, s1, t1⟩
    else if code = SQLITE_ROW then
      let s1 := { s with hasRow := true }
      ⟨Outcome.ret s1, s1, t1⟩
    else if code = SQLITE_ERROR ∨ code = SQLITE_MISUSE ∨ code = SQLITE_BUSY then
      ⟨Outcome.DBException
        ("Cannot execute step for " ++ s.query ++ " (error code: " ++ toString code ++ ")"),
        s, t1⟩
    else
      let s1 := { s with hasRow := false, done := false }
      ⟨Outcome.ret s1, s1, t1⟩

/-- The method `Statement::fetch()`: `step()`, then the value of `hasRow`. -/
def Statement.fetch (E : Engine) (s : Statement) (t : Trace) : Result Bool :=
  let r := s.step E t
  match r.outcome with
  | Outcome.ret _ => ⟨Outcome.ret r.self.hasRow, r.self, r.trace⟩
  | Outcome.SQLException w => ⟨Outcome.SQLException w, r.self, r.trace⟩
  | Outcome.DBException w => ⟨Outcome.DBException w, r.self, r.trace⟩
  | Outcome.assertFailed => ⟨Outcome.assertFailed, r.self, r.trace⟩
  | Outcome.undefinedBehaviour => ⟨Outcome.undefinedBehaviour, r.self, r.trace⟩

/-- The method `Statement::getInt(columnId)`. -/
def Statement.getInt (E : Engine) (columnId : Int) (s : Statement) (t : Trace) : Result Int :=
  match s.stmt with
  | none => ⟨Outcome.assertFailed, s, t⟩
  | some h => ⟨Outcome.ret (E.sqlite3_column_int t h columnId), s, t ++ [Call.column_int h columnId]⟩

/-- The method `Statement::getInt64(columnId)`. -/
def Statement.getInt64 (E : Engine) (columnId : Int) (s : Statement) (t : Trace) : Result Int :=
  match s.stmt with
  | none => ⟨Outcome.assertFailed, s, t⟩
  | some h =>
    ⟨Outcome.ret (E.sqlite3_column_int64 t h columnId), s, t ++ [Call.column_int64 h columnId]⟩

/-- The method `Statement::getText(columnId)`: the pointer returned by
`sqlite3_column_text` goes straight into the `std::string` constructor, which
reads the C string it points at; for a null pointer that is undefined
behaviour. -/
def Statement.getText (E : Engine) (columnId : Int) (s : Statement) (t : Trace) :
    Result String :=
  match s.stmt with
  | none => ⟨Outcome.assertFailed, s, t⟩
  | some h =>
    let t1 := t ++ [Call.column_text h columnId]
    match E.sqlite3_column_text t h columnId with
    | some text => ⟨Outcome.ret text, s, t1⟩
    | none => ⟨Outcome.undefinedBehaviour, s, t1⟩

/-- The method `Statement::reset()`. -/
def Statement.reset (E : Engine) (s : Statement) (t : Trace) : Result Unit :=
  match s.stmt with
  | none => ⟨Outcome.assertFailed, s, t⟩
  | some h =>
    let t1 := t ++ [Call.reset h]
    if E.sqlite3_reset t h ≠ SQLITE_OK then
      ⟨Outcome.SQLException ("Cannot reset query: " ++ s.query), s, t1⟩
    else
      let t2 := t1 ++ [Call.clear_bindings h]
      if E.sqlite3_clear_bindings t1 h ≠ SQLITE_OK then
        ⟨Outcome.SQLException ("Cannot reset bindings: " ++ s.query), s, t2⟩
      else
        ⟨Outcome.ret (), { s with done := false, hasRow := false }, t2⟩

/-! ## Sequences of calls on one statement -/

/-- One method call a client makes on a statement. -/
inductive Op where
  | bindText (paramNum : Int) (value : String)
  | bindInt (paramNum : Int) (value : Int)
  | bindInt64 (paramNum : Int) (value : Int)
  | step
  | fetch
  | getInt (columnId : Int)
  | getInt64 (columnId : Int)
  | getText (columnId : Int)
  | reset
  deriving DecidableEq, Repr

/-- Runs one method call on an object within its lifetime.  The flag says
whether the call crashed the process; an exception does not: the client
catches it and goes on. -/
def exec (E : Engine) : Op → Statement → Trace → Bool × Statement × Trace
  | Op.bindText p v, s, t =>
    let r := s.bindText E p v t
    (r.outcome.crashed, r.self, r.trace)
  | Op.bindInt p v, s, t =>
    let r := s.bindInt E p v t
    (r.outcome.crashed, r.self, r.trace)
  | Op.bindInt64 p v, s, t =>
    let r := s.bindInt64 E p v t
    (r.outcome.crashed, r.self, r.trace)
  | Op.step, s, t =>
    let r := s.step E t
    (r.outcome.crashed, r.self, r.trace)
  | Op.fetch, s, t =>
    let r := s.fetch E t
    (r.outcome.crashed, r.self, r.trace)
  | Op.getInt c, s, t =>
    let r := s.getInt E c t
    (r.outcome.crashed, r.self, r.trace)
  | Op.getInt64 c, s, t =>
    let r := s.getInt64 E c t
    (r.outcome.crashed, r.self, r.trace)
  | Op.getText c, s, t =>
    let r := s.getText E c t
    (r.outcome.crashed, r.self, r.trace)
  | Op.reset, s, t =>
    let r := s.reset E t
    (r.outcome.crashed, r.self, r.trace)

/-- Runs the method calls in order on an object within its lifetime and
stops at the first one that crashes. -/
def run (E : Engine) : List Op → Statement → Trace → Bool × Statement × Trace
  | [], s, t => (false, s, t)
  | op :: ops, s, t =>
    match exec E op s t with
    | (true, s1, t1) => (true, s1, t1)
    | (false, s1, t1) => run E ops s1 t1

/-- What a client does to an object: a method call, or `release`, a call of
the destructor. -/
inductive Event where
  | call (op : Op)
  | release
  deriving DecidableEq, Repr

/-- Runs one event on an object.  On an object whose destructor has run,
every event is undefined behaviour: the flag is set and the model makes no
further engine call. -/
def Object.exec (E : Engine) : Event → Object → Trace → Bool × Object × Trace
  | Event.call op, Object.alive s, t =>
    let r := DDB.exec E op s t
    (r.1, Object.alive r.2.1, r.2.2)
  | Event.call _, Object.destroyed s, t => (true, Object.destroyed s, t)
  | Event.release, o, t =>
    let r := Statement.destroy o t
    (r.1.crashed, r.2.1, r.2.2)

/-- Runs the events in order and stops at the first one that crashes. -/
def Object.run (E : Engine) : List Event → Object → Trace → Bool × Object × Trace
  | [], o, t => (false, o, t)
  | ev :: evs, o, t =>
    match Object.exec E ev o t with
    | (true, o1, t1) => (true, o1, t1)
    | (false, o1, t1) => Object.run E evs o1 t1

/-- The invariant of a run that started with `c` finalize calls on handle
`h` in the trace: either the object is within its lifetime, its handle is
still there and no finalize call was added, or the destructor has run, its
body left the handle null, and exactly one finalize call was added. -/
def ReleasedOnce (h c : Nat) : Object → Trace → Prop
  | Object.alive s, t => s.stmt = some h ∧ t.count (Call.finalize h) = c
  | Object.destroyed s, t => s.stmt = none ∧ t.count (Call.finalize h) = c + 1

/-- Calls `fetch()` `k` times in a row and collects the values returned;
`none` when one of the calls does not return. -/
def fetches (E : Engine) : Nat → Statement → Trace → Option (List Bool × Statement × Trace)
  | 0, s, t => some ([], s, t)
  | k + 1, s, t =>
    match (s.fetch E t).outcome with
    | Outcome.ret b =>
      match fetches E k (s.fetch E t).self (s.fetch E t).trace with
      | some (bs, s1, t1) => some (b :: bs, s1, t1)
      | none => none
    | _ => none

/-! ## Concrete engines for evaluation -/

/-- The number of `sqlite3_step` calls in a trace. -/
def stepsMade : Trace → Nat
  | [] => 0
  | Call.step _ :: t => stepsMade t + 1
  | _ :: t => stepsMade t

/-- An engine that compiles every query to handle `7`, answers the steps
with the given codes in order (and `SQLITE_DONE` after them), accepts a bind
only at parameter `1`, and reads `1` and the given text pointer from every
column. -/
def scriptEngine (codes : List Int) (text : Option String) : Engine where
  sqlite3_prepare_v2 := fun _ _ _ => (SQLITE_OK, some 7)
  sqlite3_bind_text := fun _ _ p _ => if p = 1 then SQLITE_OK else SQLITE_RANGE
  sqlite3_bind_int := fun _ _ p _ => if p = 1 then SQLITE_OK else SQLITE_RANGE
  sqlite3_bind_int64 := fun _ _ p _ => if p = 1 then SQLITE_OK else SQLITE_RANGE
  sqlite3_step := fun t _ => codes.getD (stepsMade t) SQLITE_DONE
  sqlite3_column_int := fun _ _ _ => 1
  sqlite3_column_int64 := fun _ _ _ => 1
  sqlite3_column_text := fun _ _ _ => text
  sqlite3_reset := fun _ _ => SQLITE_OK
  sqlite3_clear_bindings := fun _ _ => SQLITE_OK

/-- An engine like `scriptEngine` for a query text that is empty: the
query compiles with `SQLITE_OK` and a null handle. -/
def emptyQueryEngine : Engine :=
  { scriptEngine [] none with sqlite3_prepare_v2 := fun _ _ _ => (SQLITE_OK, none) }

/-- The statement the constructor gives for the empty query text on
connection `1`: no handle. -/
def emptyQueryStatement : Statement :=
  { db := some 1, query := "", stmt := none, hasRow := false, done := false }

/-- A statement with handle `7` on connection `1` and the given cursor
flags. -/
def sampleStatement (hasRow done : Bool) : Statement :=
  { db := some 1, query := "SELECT id, name FROM t WHERE id = ?1", stmt := some 7,
    hasRow := hasRow, done := done }

end DDB

/-! ## Theorems -/

namespace DDB

/-! ### `step()` -/

/-- What `step()` does on a live handle, branch by branch of its `switch`. -/
theorem step_live (E : Engine) (s : Statement) (t : Trace) (h : Nat) (hs : s.stmt = some h) :
    s.step E t =
      if E.sqlite3_step t h = SQLITE_DONE then
        ⟨Outcome.ret { s with done := true, hasRow := false },
          { s with done := true, hasRow := false }, t ++ [Call.step h]⟩
      else if E.sqlite3_step t h = SQLITE_ROW then
        ⟨Outcome.ret { s with hasRow := true }, { s with hasRow := true }, t ++ [Call.step h]⟩
      else if E.sqlite3_step t h = SQLITE_ERROR ∨ E.sqlite3_step t h = SQLITE_MISUSE
          ∨ E.sqlite3_step t h = SQLITE_BUSY then
        ⟨Outcome.DBException
          ("Cannot execute step for " ++ s.query ++ " (error code: "
            ++ toString (E.sqlite3_step t h) ++ ")"), s, t ++ [Call.step h]⟩
      else
        ⟨Outcome.ret { s with hasRow := false, done := false },
          { s with hasRow := false, done := false }, t ++ [Call.step h]⟩ := by
  simp only [Statement.step, hs]

/-- C1, evaluated on the code: a statement that has reached the end of its
rows (`done` true) is stepped once more and the engine reports `SQLITE_ROW`
(SQLite restarts a finished statement); the `SQLITE_ROW` branch sets `hasRow`
and leaves `done` as it was, so both flags are true afterwards. -/
theorem step_row_after_done_sets_both_flags :
    ((sampleStatement false true).step (scriptEngine [SQLITE_ROW] none) []).outcome
        = Outcome.ret (sampleStatement true true)
      ∧ ((sampleStatement false true).step (scriptEngine [SQLITE_ROW] none) []).self.hasRow = true
      ∧ ((sampleStatement false true).step (scriptEngine [SQLITE_ROW] none) []).self.done = true
      ∧ (run (scriptEngine [SQLITE_ROW, SQLITE_DONE, SQLITE_ROW] none) [Op.step, Op.step, Op.step]
          (sampleStatement false false) []).2.1 = sampleStatement true true := by
  decide

/-- C2 as stated fails: a statement that has a row is stepped and the engine
reports `SQLITE_BUSY`; the call throws and `hasRow` is still true. -/
theorem step_busy_keeps_hasRow :
    ((sampleStatement true false).step (scriptEngine [SQLITE_BUSY] none) []).outcome.threw = true
      ∧ ¬ (((sampleStatement true false).step (scriptEngine [SQLITE_BUSY] none) []).self.hasRow
            = false
          ∧ ((sampleStatement true false).step (scriptEngine [SQLITE_BUSY] none) []).self.done
            = false) := by
  decide

/-- C2, amended: on a live handle, when the engine reports `SQLITE_ERROR`,
`SQLITE_MISUSE` or `SQLITE_BUSY`, `step()` throws the step error, which
carries the query text and the code, and the object, both cursor flags
included, is exactly as it was before the call. -/
theorem step_error_throws_and_keeps_flags (E : Engine) (s : Statement) (t : Trace) (h : Nat)
    (hs : s.stmt = some h)
    (hc : E.sqlite3_step t h = SQLITE_ERROR ∨ E.sqlite3_step t h = SQLITE_MISUSE
      ∨ E.sqlite3_step t h = SQLITE_BUSY) :
    (s.step E t).outcome = Outcome.DBException
        ("Cannot execute step for " ++ s.query ++ " (error code: "
          ++ toString (E.sqlite3_step t h) ++ ")")
      ∧ (s.step E t).self = s
      ∧ (s.step E t).self.hasRow = s.hasRow
      ∧ (s.step E t).self.done = s.done := by
  rw [step_live E s t h hs]
  have h1 : E.sqlite3_step t h ≠ SQLITE_DONE := by
    rcases hc with hc | hc | hc <;> rw [hc] <;> decide
  have h2 : E.sqlite3_step t h ≠ SQLITE_ROW := by
    rcases hc with hc | hc | hc <;> rw [hc] <;> decide
  rw [if_neg h1, if_neg h2, if_pos hc]
  exact ⟨rfl, rfl, rfl, rfl⟩

/-- Witness of C2 (amended) at a statement with a row and a busy engine. -/
theorem step_error_throws_and_keeps_flags_witness :
    ((sampleStatement true false).step (scriptEngine [SQLITE_BUSY] none) []).outcome
        = Outcome.DBException
            ("Cannot execute step for " ++ (sampleStatement true false).query ++ " (error code: "
              ++ toString ((scriptEngine [SQLITE_BUSY] none).sqlite3_step [] 7) ++ ")")
      ∧ ((sampleStatement true false).step (scriptEngine [SQLITE_BUSY] none) []).self
        = sampleStatement true false
      ∧ ((sampleStatement true false).step (scriptEngine [SQLITE_BUSY] none) []).self.hasRow
        = (sampleStatement true false).hasRow
      ∧ ((sampleStatement true false).step (scriptEngine [SQLITE_BUSY] none) []).self.done
        = (sampleStatement true false).done :=
  step_error_throws_and_keeps_flags (scriptEngine [SQLITE_BUSY] none) (sampleStatement true false)
    [] 7 rfl (by decide)

/-- C3: on a live handle `step()` makes exactly one engine call, the
`sqlite3_step` on its handle; it throws if and only if the code of that call
is `SQLITE_ERROR`, `SQLITE_MISUSE` or `SQLITE_BUSY` and otherwise returns;
and for every code other than `SQLITE_ROW`, `SQLITE_DONE` and the three
error codes it returns with `hasRow` and `done` both false. -/
theorem step_calls_once_fails_iff_error (E : Engine) (s : Statement) (t : Trace) (h : Nat)
    (hs : s.stmt = some h) :
    (s.step E t).trace = t ++ [Call.step h]
      ∧ ((s.step E t).outcome.threw = true ↔
          (E.sqlite3_step t h = SQLITE_ERROR ∨ E.sqlite3_step t h = SQLITE_MISUSE
            ∨ E.sqlite3_step t h = SQLITE_BUSY))
      ∧ ((s.step E t).outcome = Outcome.ret (s.step E t).self ↔
          ¬ (E.sqlite3_step t h = SQLITE_ERROR ∨ E.sqlite3_step t h = SQLITE_MISUSE
            ∨ E.sqlite3_step t h = SQLITE_BUSY))
      ∧ (E.sqlite3_step t h ≠ SQLITE_ROW → E.sqlite3_step t h ≠ SQLITE_DONE →
          E.sqlite3_step t h ≠ SQLITE_ERROR → E.sqlite3_step t h ≠ SQLITE_MISUSE →
          E.sqlite3_step t h ≠ SQLITE_BUSY →
          (s.step E t).outcome = Outcome.ret (s.step E t).self
            ∧ (s.step E t).self.hasRow = false ∧ (s.step E t).self.done = false) := by
  rw [step_live E s t h hs]
  by_cases h1 : E.sqlite3_step t h = SQLITE_DONE
  · have e : ¬ (E.sqlite3_step t h = SQLITE_ERROR ∨ E.sqlite3_step t h = SQLITE_MISUSE
        ∨ E.sqlite3_step t h = SQLITE_BUSY) := by rw [h1]; decide
    rw [if_pos h1]
    exact ⟨rfl, ⟨fun hf => by simp [Outcome.threw] at hf, fun hf => absurd hf e⟩,
      ⟨fun _ => e, fun _ => rfl⟩, fun _ hf => absurd h1 hf⟩
  · by_cases h2 : E.sqlite3_step t h = SQLITE_ROW
    · have e : ¬ (E.sqlite3_step t h = SQLITE_ERROR ∨ E.sqlite3_step t h = SQLITE_MISUSE
          ∨ E.sqlite3_step t h = SQLITE_BUSY) := by rw [h2]; decide
      rw [if_neg h1, if_pos h2]
      exact ⟨rfl, ⟨fun hf => by simp [Outcome.threw] at hf, fun hf => absurd hf e⟩,
        ⟨fun _ => e, fun _ => rfl⟩, fun hf => absurd h2 hf⟩
    · by_cases h3 : E.sqlite3_step t h = SQLITE_ERROR ∨ E.sqlite3_step t h = SQLITE_MISUSE
          ∨ E.sqlite3_step t h = SQLITE_BUSY
      · rw [if_neg h1, if_neg h2, if_pos h3]
        refine ⟨rfl, ⟨fun _ => h3, fun _ => rfl⟩, ⟨fun hf => ?_, fun hf => absurd h3 hf⟩,
          fun _ _ h5 h6 h7 => ?_⟩
        · exact absurd hf (by simp)
        · rcases h3 with h3 | h3 | h3
          · exact absurd h3 h5
          · exact absurd h3 h6
          · exact absurd h3 h7
      · rw [if_neg h1, if_neg h2, if_neg h3]
        exact ⟨rfl, ⟨fun hf => by simp [Outcome.threw] at hf, fun hf => absurd hf h3⟩,
          ⟨fun _ => h3, fun _ => rfl⟩, fun _ _ _ _ _ => ⟨rfl, rfl, rfl⟩⟩

/-- Witness of C3 at an engine that reports code `7` (`SQLITE_NOMEM`), which
is none of the five codes of the `switch`. -/
theorem step_calls_once_fails_iff_error_witness :
    ((sampleStatement true true).step (scriptEngine [7] none) []).trace = [] ++ [Call.step 7]
      ∧ ((sampleStatement true true).step (scriptEngine [7] none) []).outcome
          = Outcome.ret ((sampleStatement true true).step (scriptEngine [7] none) []).self
      ∧ ((sampleStatement true true).step (scriptEngine [7] none) []).self.hasRow = false
      ∧ ((sampleStatement true true).step (scriptEngine [7] none) []).self.done = false :=
  ⟨(step_calls_once_fails_iff_error (scriptEngine [7] none) (sampleStatement true true) [] 7
      rfl).1,
    (step_calls_once_fails_iff_error (scriptEngine [7] none) (sampleStatement true true) [] 7
      rfl).2.2.2 (by decide) (by decide) (by decide) (by decide) (by decide)⟩

/-! ### `fetch()` -/

/-- What `fetch()` does on a live handle: it throws on the three error
codes and otherwise returns whether the code was `SQLITE_ROW`. -/
theorem fetch_live (E : Engine) (s : Statement) (t : Trace) (h : Nat) (hs : s.stmt = some h) :
    s.fetch E t =
      if E.sqlite3_step t h = SQLITE_DONE then
        ⟨Outcome.ret false, { s with done := true, hasRow := false }, t ++ [Call.step h]⟩
      else if E.sqlite3_step t h = SQLITE_ROW then
        ⟨Outcome.ret true, { s with hasRow := true }, t ++ [Call.step h]⟩
      else if E.sqlite3_step t h = SQLITE_ERROR ∨ E.sqlite3_step t h = SQLITE_MISUSE
          ∨ E.sqlite3_step t h = SQLITE_BUSY then
        ⟨Outcome.DBException
          ("Cannot execute step for " ++ s.query ++ " (error code: "
            ++ toString (E.sqlite3_step t h) ++ ")"), s, t ++ [Call.step h]⟩
      else
        ⟨Outcome.ret false, { s with hasRow := false, done := false }, t ++ [Call.step h]⟩ := by
  unfold Statement.fetch
  rw [step_live E s t h hs]
  by_cases h1 : E.sqlite3_step t h = SQLITE_DONE
  · simp only [if_pos h1]
  · by_cases h2 : E.sqlite3_step t h = SQLITE_ROW
    · simp only [if_neg h1, if_pos h2]
    · by_cases h3 : E.sqlite3_step t h = SQLITE_ERROR ∨ E.sqlite3_step t h = SQLITE_MISUSE
          ∨ E.sqlite3_step t h = SQLITE_BUSY
      · simp only [if_neg h1, if_neg h2, if_pos h3]
      · simp only [if_neg h1, if_neg h2, if_neg h3]

/-- On a live handle `fetch()` returns true exactly when the code of its
step is `SQLITE_ROW`. -/
theorem fetch_true_iff_row (E : Engine) (s : Statement) (t : Trace) (h : Nat)
    (hs : s.stmt = some h) :
    (s.fetch E t).outcome = Outcome.ret true ↔ E.sqlite3_step t h = SQLITE_ROW := by
  rw [fetch_live E s t h hs]
  by_cases h1 : E.sqlite3_step t h = SQLITE_DONE
  · have e : E.sqlite3_step t h ≠ SQLITE_ROW := by rw [h1]; decide
    rw [if_pos h1]
    exact ⟨fun hf => by simp at hf, fun hf => absurd hf e⟩
  · by_cases h2 : E.sqlite3_step t h = SQLITE_ROW
    · rw [if_neg h1, if_pos h2]
      exact ⟨fun _ => h2, fun _ => rfl⟩
    · by_cases h3 : E.sqlite3_step t h = SQLITE_ERROR ∨ E.sqlite3_step t h = SQLITE_MISUSE
          ∨ E.sqlite3_step t h = SQLITE_BUSY
      · rw [if_neg h1, if_neg h2, if_pos h3]
        exact ⟨fun hf => by simp at hf, fun hf => absurd hf h2⟩
      · rw [if_neg h1, if_neg h2, if_neg h3]
        exact ⟨fun hf => by simp at hf, fun hf => absurd hf h2⟩

/-- From any statement with a live handle: `n` steps that report a row and
then one that reports the end make `n` fetches return true and the next one
false, and leave `done` true and `hasRow` false. -/
theorem fetches_rows_then_done (E : Engine) (h : Nat) :
    ∀ (n : Nat) (s : Statement) (t : Trace), s.stmt = some h →
      (∀ k, k < n → E.sqlite3_step (t ++ List.replicate k (Call.step h)) h = SQLITE_ROW) →
      E.sqlite3_step (t ++ List.replicate n (Call.step h)) h = SQLITE_DONE →
      fetches E (n + 1) s t =
        some (List.replicate n true ++ [false], { s with done := true, hasRow := false },
          t ++ List.replicate (n + 1) (Call.step h)) := by
  intro n
  induction n with
  | zero =>
    intro s t hs _ hdone
    have hd : E.sqlite3_step t h = SQLITE_DONE := by simpa using hdone
    simp only [fetches, fetch_live E s t h hs, if_pos hd]
    rfl
  | succ n ih =>
    intro s t hs hrow hdone
    have hr : E.sqlite3_step t h = SQLITE_ROW := by simpa using hrow 0 (Nat.succ_pos n)
    have hnd : E.sqlite3_step t h ≠ SQLITE_DONE := by rw [hr]; decide
    have shift : ∀ k, t ++ [Call.step h] ++ List.replicate k (Call.step h)
        = t ++ List.replicate (k + 1) (Call.step h) := by
      intro k
      simp [List.replicate_succ]
    have ih1 := ih { s with hasRow := true } (t ++ [Call.step h]) hs
      (fun k hk => by rw [shift k]; exact hrow (k + 1) (Nat.succ_lt_succ hk))
      (by rw [shift n]; exact hdone)
    rw [fetches]
    simp only [fetch_live E s t h hs, if_neg hnd, if_pos hr]
    rw [ih1, shift (n + 1)]
    rfl

/-- C4: a freshly constructed statement is fetched while the engine reports
`SQLITE_ROW` on the first `n` steps and `SQLITE_DONE` on step `n + 1`: the
first `n` calls of `fetch()` return true, call `n + 1` returns false, and the
statement ends with `done` true and `hasRow` false.  In general, on a live
handle, `fetch()` returns true exactly when the code of its step is
`SQLITE_ROW`. -/
theorem fetch_rows_then_done (E : Engine) (db : Option Nat) (query : String) (t0 t1 : Trace)
    (s : Statement) (h n : Nat)
    (hc : Statement.construct E db query t0 = (Outcome.ret s, t1))
    (hs : s.stmt = some h)
    (hrow : ∀ k, k < n → E.sqlite3_step (t1 ++ List.replicate k (Call.step h)) h = SQLITE_ROW)
    (hdone : E.sqlite3_step (t1 ++ List.replicate n (Call.step h)) h = SQLITE_DONE) :
    (s.hasRow = false ∧ s.done = false)
      ∧ fetches E (n + 1) s t1 =
          some (List.replicate n true ++ [false],
            { db := db, query := query, stmt := some h, hasRow := false, done := true },
            t1 ++ List.replicate (n + 1) (Call.step h))
      ∧ (∀ (s2 : Statement) (t2 : Trace) (h2 : Nat), s2.stmt = some h2 →
          ((s2.fetch E t2).outcome = Outcome.ret true ↔ E.sqlite3_step t2 h2 = SQLITE_ROW)) := by
  have hfresh : s = Statement.mk db query (E.sqlite3_prepare_v2 t0 db query).2 false false := by
    unfold Statement.construct at hc
    by_cases hp : (E.sqlite3_prepare_v2 t0 db query).1 ≠ SQLITE_OK
    · simp [hp] at hc
    · simp only [if_neg hp, Prod.mk.injEq, Outcome.ret.injEq] at hc
      exact hc.1.symm
  have hq : s.query = query := by rw [hfresh]
  have hd : s.db = db := by rw [hfresh]
  refine ⟨⟨by rw [hfresh], by rw [hfresh]⟩, ?_, fun s2 t2 h2 hs2 => fetch_true_iff_row E s2 t2 h2 hs2⟩
  rw [fetches_rows_then_done E h n s t1 hs hrow hdone, ← hs, ← hq, ← hd]

/-- Witness of C4: the statement of scenario A with two rows. -/
theorem fetch_rows_then_done_witness :
    fetches (scriptEngine [SQLITE_ROW, SQLITE_ROW, SQLITE_DONE] none) 3
        { db := some 1, query := "SELECT 1", stmt := some 7, hasRow := false, done := false }
        [Call.prepare_v2 (some 1) "SELECT 1"]
      = some (List.replicate 2 true ++ [false],
          { db := some 1, query := "SELECT 1", stmt := some 7, hasRow := false, done := true },
          [Call.prepare_v2 (some 1) "SELECT 1"] ++ List.replicate 3 (Call.step 7)) :=
  (fetch_rows_then_done (scriptEngine [SQLITE_ROW, SQLITE_ROW, SQLITE_DONE] none) (some 1)
    "SELECT 1" [] [Call.prepare_v2 (some 1) "SELECT 1"]
    { db := some 1, query := "SELECT 1", stmt := some 7, hasRow := false, done := false } 7 2
    (by decide) rfl
    (fun k hk => by
      have hk2 : k = 0 ∨ k = 1 := by omega
      rcases hk2 with hk2 | hk2 <;> subst hk2 <;> decide)
    (by decide)).2.1

/-! ### The column getters -/

/-- C5 as stated fails: on a statement with a live handle whose cursor is
Ready (no step made yet) or Done, the three getters are not rejected; they
return what the engine gives for the column. -/
theorem getters_return_outside_HasRow :
    ((sampleStatement false false).getInt (scriptEngine [] (some "x")) 0 []).outcome
        = Outcome.ret 1
      ∧ ((sampleStatement false false).getInt64 (scriptEngine [] (some "x")) 0 []).outcome
        = Outcome.ret 1
      ∧ ((sampleStatement false false).getText (scriptEngine [] (some "x")) 0 []).outcome
        = Outcome.ret "x"
      ∧ ((sampleStatement false true).getInt (scriptEngine [] (some "x")) 0 []).outcome
        = Outcome.ret 1
      ∧ ((sampleStatement false true).getInt (scriptEngine [] (some "x")) 0 []).outcome
        ≠ Outcome.assertFailed := by
  decide

/-- C5, amended: for every column index and every cursor state, each of
`getInt`, `getInt64` and `getText` fails its assertion exactly when the
native handle is absent; on a live handle, whatever `hasRow` and `done` are,
`getInt` and `getInt64` return the value the engine gives for the column, and
`getText` returns the engine's text when the engine's pointer is not null. -/
theorem getters_assert_only_handle (E : Engine) (c : Int) (s : Statement) (t : Trace) :
    ((s.getInt E c t).outcome = Outcome.assertFailed ↔ s.stmt = none)
      ∧ ((s.getInt64 E c t).outcome = Outcome.assertFailed ↔ s.stmt = none)
      ∧ ((s.getText E c t).outcome = Outcome.assertFailed ↔ s.stmt = none)
      ∧ (∀ h, s.stmt = some h →
          (s.getInt E c t).outcome = Outcome.ret (E.sqlite3_column_int t h c)
            ∧ (s.getInt64 E c t).outcome = Outcome.ret (E.sqlite3_column_int64 t h c)
            ∧ (∀ text, E.sqlite3_column_text t h c = some text →
                (s.getText E c t).outcome = Outcome.ret text)) := by
  cases hs : s.stmt with
  | none => simp [Statement.getInt, Statement.getInt64, Statement.getText, hs]
  | some h =>
    refine ⟨by simp [Statement.getInt, hs], by simp [Statement.getInt64, hs], ?_, ?_⟩
    · cases hx : E.sqlite3_column_text t h c <;> simp [Statement.getText, hs, hx]
    · intro h1 h1e
      cases h1e
      refine ⟨by simp [Statement.getInt, hs], by simp [Statement.getInt64, hs], ?_⟩
      intro text hx
      simp [Statement.getText, hs, hx]

/-- Witness of C5 (amended) at a statement whose cursor is Done. -/
theorem getters_assert_only_handle_witness :
    ((sampleStatement false true).getInt (scriptEngine [] (some "x")) 0 []).outcome
        = Outcome.ret ((scriptEngine [] (some "x")).sqlite3_column_int [] 7 0)
      ∧ ((sampleStatement false true).getInt64 (scriptEngine [] (some "x")) 0 []).outcome
        = Outcome.ret ((scriptEngine [] (some "x")).sqlite3_column_int64 [] 7 0)
      ∧ ((sampleStatement false true).getText (scriptEngine [] (some "x")) 0 []).outcome
        = Outcome.ret "x" :=
  ⟨((getters_assert_only_handle (scriptEngine [] (some "x")) 0 (sampleStatement false true)
      []).2.2.2 7 rfl).1,
    ((getters_assert_only_handle (scriptEngine [] (some "x")) 0 (sampleStatement false true)
      []).2.2.2 7 rfl).2.1,
    ((getters_assert_only_handle (scriptEngine [] (some "x")) 0 (sampleStatement false true)
      []).2.2.2 7 rfl).2.2 "x" rfl⟩

/-- C8, evaluated on the code: the statement has a row and the engine gives
a null pointer for the text of column `1` (the column holds SQL NULL);
`getText` hands the null pointer to the `std::string` constructor, so the
call ends in undefined behaviour and no sentinel string is returned.  The
same happens right after construction and one successful `fetch()`. -/
theorem getText_null_is_undefined :
    ((sampleStatement true false).getText (scriptEngine [SQLITE_ROW] none) 1 []).outcome
        = Outcome.undefinedBehaviour
      ∧ (∀ sentinel : String,
          ((sampleStatement true false).getText (scriptEngine [SQLITE_ROW] none) 1 []).outcome
            ≠ Outcome.ret sentinel)
      ∧ (run (scriptEngine [SQLITE_ROW] none) [Op.fetch, Op.getText 1]
          (sampleStatement false false) []).1 = true := by
  refine ⟨by decide, fun sentinel hf => ?_, by decide⟩
  have e : ((sampleStatement true false).getText (scriptEngine [SQLITE_ROW] none) 1 []).outcome
      = Outcome.undefinedBehaviour := by decide
  rw [e] at hf
  cases hf

/-! ### `bind` -/

/-- The result of `bindCheck`, by cases on the code. -/
theorem bindCheck_eq (s : Statement) (code : Int) :
    s.bindCheck code =
      if code = SQLITE_OK then Outcome.ret ()
      else Outcome.SQLException
        ("Failed binding values for " ++ s.query ++ " (error code: " ++ toString code ++ ")") := by
  unfold Statement.bindCheck
  by_cases hc : code = SQLITE_OK
  · simp [hc]
  · simp [hc]

/-- C9 as stated fails: binds at the two different parameter indices `99`
and `98`, both refused by the engine with `SQLITE_RANGE`, throw the very same
error, so the error does not carry the parameter index. -/
theorem bind_error_does_not_carry_index :
    ((sampleStatement false false).bindInt (scriptEngine [] none) 99 5 []).outcome.threw = true
      ∧ ((sampleStatement false false).bindInt (scriptEngine [] none) 99 5 []).outcome
        = ((sampleStatement false false).bindInt (scriptEngine [] none) 98 5 []).outcome
      ∧ ((sampleStatement false false).bindText (scriptEngine [] none) 99 "a" []).outcome
        = ((sampleStatement false false).bindText (scriptEngine [] none) 98 "a" []).outcome
      ∧ ((sampleStatement false false).bindInt64 (scriptEngine [] none) 99 5 []).outcome
        = ((sampleStatement false false).bindInt64 (scriptEngine [] none) 98 5 []).outcome := by
  decide

/-- C9, amended: on a statement with a live handle and a connection, for
every parameter index and each of the three value kinds, `bind` makes the one
engine bind call, throws if and only if that call returns a code other than
`SQLITE_OK`, and the error then carries the query text and the native code
(the parameter index is not in it); whether it throws or not, the object
(handle and cursor flags included) is unchanged, and on success the statement
itself is returned. -/
theorem bind_fails_iff_engine_refuses (E : Engine) (p : Int) (text : String) (v : Int)
    (s : Statement) (t : Trace) (h d : Nat) (hs : s.stmt = some h) (hd : s.db = some d) :
    ((s.bindText E p text t).trace = t ++ [Call.bind_text h p text]
        ∧ (s.bindText E p text t).self = s
        ∧ ((s.bindText E p text t).outcome.threw = true ↔
            E.sqlite3_bind_text t h p text ≠ SQLITE_OK)
        ∧ (s.bindText E p text t).outcome =
            if E.sqlite3_bind_text t h p text = SQLITE_OK then Outcome.ret s
            else Outcome.SQLException
              ("Failed binding values for " ++ s.query ++ " (error code: "
                ++ toString (E.sqlite3_bind_text t h p text) ++ ")"))
      ∧ ((s.bindInt E p v t).trace = t ++ [Call.bind_int h p v]
        ∧ (s.bindInt E p v t).self = s
        ∧ ((s.bindInt E p v t).outcome.threw = true ↔ E.sqlite3_bind_int t h p v ≠ SQLITE_OK)
        ∧ (s.bindInt E p v t).outcome =
            if E.sqlite3_bind_int t h p v = SQLITE_OK then Outcome.ret s
            else Outcome.SQLException
              ("Failed binding values for " ++ s.query ++ " (error code: "
                ++ toString (E.sqlite3_bind_int t h p v) ++ ")"))
      ∧ ((s.bindInt64 E p v t).trace = t ++ [Call.bind_int64 h p v]
        ∧ (s.bindInt64 E p v t).self = s
        ∧ ((s.bindInt64 E p v t).outcome.threw = true ↔
            E.sqlite3_bind_int64 t h p v ≠ SQLITE_OK)
        ∧ (s.bindInt64 E p v t).outcome =
            if E.sqlite3_bind_int64 t h p v = SQLITE_OK then Outcome.ret s
            else Outcome.SQLException
              ("Failed binding values for " ++ s.query ++ " (error code: "
                ++ toString (E.sqlite3_bind_int64 t h p v) ++ ")")) := by
  refine ⟨?_, ?_, ?_⟩
  · by_cases hc : E.sqlite3_bind_text t h p text = SQLITE_OK
    · simp [Statement.bindText, hs, hd, bindCheck_eq, hc, Outcome.threw]
    · simp [Statement.bindText, hs, hd, bindCheck_eq, hc, Outcome.threw]
  · by_cases hc : E.sqlite3_bind_int t h p v = SQLITE_OK
    · simp [Statement.bindInt, hs, hd, bindCheck_eq, hc, Outcome.threw]
    · simp [Statement.bindInt, hs, hd, bindCheck_eq, hc, Outcome.threw]
  · by_cases hc : E.sqlite3_bind_int64 t h p v = SQLITE_OK
    · simp [Statement.bindInt64, hs, hd, bindCheck_eq, hc, Outcome.threw]
    · simp [Statement.bindInt64, hs, hd, bindCheck_eq, hc, Outcome.threw]

/-- Witness of C9 (amended), scenario C: a bind at index `99` of a query with
one placeholder is refused with `SQLITE_RANGE`, and the statement is as
before. -/
theorem bind_fails_iff_engine_refuses_witness :
    ((sampleStatement false false).bindInt (scriptEngine [] none) 99 5 []).trace
        = [] ++ [Call.bind_int 7 99 5]
      ∧ ((sampleStatement false false).bindInt (scriptEngine [] none) 99 5 []).self
        = sampleStatement false false
      ∧ (((sampleStatement false false).bindInt (scriptEngine [] none) 99 5 []).outcome.threw
          = true ↔ (scriptEngine [] none).sqlite3_bind_int [] 7 99 5 ≠ SQLITE_OK)
      ∧ ((sampleStatement false false).bindInt (scriptEngine [] none) 99 5 []).outcome =
          if (scriptEngine [] none).sqlite3_bind_int [] 7 99 5 = SQLITE_OK then
            Outcome.ret (sampleStatement false false)
          else Outcome.SQLException
            ("Failed binding values for " ++ (sampleStatement false false).query
              ++ " (error code: "
              ++ toString ((scriptEngine [] none).sqlite3_bind_int [] 7 99 5) ++ ")") :=
  (bind_fails_iff_engine_refuses (scriptEngine [] none) 99 "a" 5 (sampleStatement false false)
    [] 7 1 rfl rfl).2.1

/-! ### `reset()` -/

/-- C7: on a live handle and in every cursor state, `reset()` first calls
the engine's cursor reset and then, only when that returned `SQLITE_OK`, the
engine's clear-bindings; it returns exactly when both codes are `SQLITE_OK`,
and then `hasRow` and `done` are false and the handle is kept; when the
cursor reset is refused it throws the cursor error after that single call,
and when only clear-bindings is refused it throws the bindings error, whose
message differs from that of the cursor error; in both failures the object is
unchanged. -/
theorem reset_two_phases (E : Engine) (s : Statement) (t : Trace) (h : Nat)
    (hs : s.stmt = some h) :
    ((s.reset E t).outcome = Outcome.ret () ↔
        (E.sqlite3_reset t h = SQLITE_OK
          ∧ E.sqlite3_clear_bindings (t ++ [Call.reset h]) h = SQLITE_OK))
      ∧ (E.sqlite3_reset t h = SQLITE_OK →
          E.sqlite3_clear_bindings (t ++ [Call.reset h]) h = SQLITE_OK →
          (s.reset E t).self = { s with hasRow := false, done := false }
            ∧ (s.reset E t).self.hasRow = false ∧ (s.reset E t).self.done = false
            ∧ (s.reset E t).self.stmt = some h
            ∧ (s.reset E t).trace = t ++ [Call.reset h, Call.clear_bindings h])
      ∧ (E.sqlite3_reset t h ≠ SQLITE_OK →
          (s.reset E t).outcome = Outcome.SQLException ("Cannot reset query: " ++ s.query)
            ∧ (s.reset E t).self = s
            ∧ (s.reset E t).trace = t ++ [Call.reset h])
      ∧ (E.sqlite3_reset t h = SQLITE_OK →
          E.sqlite3_clear_bindings (t ++ [Call.reset h]) h ≠ SQLITE_OK →
          (s.reset E t).outcome = Outcome.SQLException ("Cannot reset bindings: " ++ s.query)
            ∧ (s.reset E t).self = s
            ∧ (s.reset E t).trace = t ++ [Call.reset h, Call.clear_bindings h])
      ∧ "Cannot reset query: " ++ s.query ≠ "Cannot reset bindings: " ++ s.query := by
  have hmsg : "Cannot reset query: " ++ s.query ≠ "Cannot reset bindings: " ++ s.query := by
    intro hf
    have hdata := congrArg String.data hf
    simp [String.data_append] at hdata
  by_cases h1 : E.sqlite3_reset t h = SQLITE_OK
  · by_cases h2 : E.sqlite3_clear_bindings (t ++ [Call.reset h]) h = SQLITE_OK
    · simp [Statement.reset, hs, h1, h2, hmsg]
    · simp [Statement.reset, hs, h1, h2, hmsg]
  · simp [Statement.reset, hs, h1, hmsg]

/-- Witness of C7 at an engine that accepts both calls, on a statement
whose cursor is Done. -/
theorem reset_two_phases_witness :
    ((sampleStatement false true).reset (scriptEngine [] none) []).self
        = { sampleStatement false true with hasRow := false, done := false }
      ∧ ((sampleStatement false true).reset (scriptEngine [] none) []).self.hasRow = false
      ∧ ((sampleStatement false true).reset (scriptEngine [] none) []).self.done = false
      ∧ ((sampleStatement false true).reset (scriptEngine [] none) []).self.stmt = some 7
      ∧ ((sampleStatement false true).reset (scriptEngine [] none) []).trace
        = [] ++ [Call.reset 7, Call.clear_bindings 7] :=
  (reset_two_phases (scriptEngine [] none) (sampleStatement false true) [] 7 rfl).2.1 rfl rfl

/-! ### The handle assertion -/

/-- The constructor on the empty query text returns a statement without
handle. -/
theorem construct_empty_query :
    Statement.construct emptyQueryEngine (some 1) "" []
      = (Outcome.ret emptyQueryStatement, [Call.prepare_v2 (some 1) ""]) := by
  decide

/-- A method call on a live handle keeps the handle and adds no finalize
call. -/
theorem exec_live (E : Engine) (op : Op) (s : Statement) (t : Trace) (h : Nat)
    (hs : s.stmt = some h) :
    (exec E op s t).2.1.stmt = some h
      ∧ (exec E op s t).2.2.count (Call.finalize h) = t.count (Call.finalize h) := by
  cases op with
  | bindText p v =>
    cases hd : s.db with
    | none => simp [exec, Statement.bindText, hs, hd]
    | some d => simp [exec, Statement.bindText, hs, hd, bindCheck_eq]; split_ifs <;> simp [hs]
  | bindInt p v =>
    cases hd : s.db with
    | none => simp [exec, Statement.bindInt, hs, hd]
    | some d => simp [exec, Statement.bindInt, hs, hd, bindCheck_eq]; split_ifs <;> simp [hs]
  | bindInt64 p v =>
    cases hd : s.db with
    | none => simp [exec, Statement.bindInt64, hs, hd]
    | some d => simp [exec, Statement.bindInt64, hs, hd, bindCheck_eq]; split_ifs <;> simp [hs]
  | step => simp only [exec, step_live E s t h hs]; split_ifs <;> simp [hs]
  | fetch => simp only [exec, fetch_live E s t h hs]; split_ifs <;> simp [hs]
  | getInt c => simp [exec, Statement.getInt, hs]
  | getInt64 c => simp [exec, Statement.getInt64, hs]
  | getText c =>
    cases hx : E.sqlite3_column_text t h c <;> simp [exec, Statement.getText, hs, hx]
  | reset => simp [exec, Statement.reset, hs]; split_ifs <;> simp [hs]

/-- Every event on an object whose destructor has run crashes and leaves
the object and the trace as they were. -/
theorem exec_destroyed (E : Engine) (ev : Event) (s : Statement) (t : Trace) :
    Object.exec E ev (Object.destroyed s) t = (true, Object.destroyed s, t) := by
  cases ev <;> rfl

/-- A sequence of events on an object whose destructor has run leaves the
object and the trace as they were. -/
theorem run_destroyed (E : Engine) (evs : List Event) (s : Statement) (t : Trace) :
    (Object.run E evs (Object.destroyed s) t).2 = (Object.destroyed s, t) := by
  cases evs with
  | nil => rfl
  | cons ev evs => rw [Object.run, exec_destroyed E ev s t]

/-- One event keeps the invariant. -/
theorem exec_keeps_ReleasedOnce (E : Engine) (h c : Nat) (ev : Event) (o : Object) (t : Trace)
    (hi : ReleasedOnce h c o t) :
    ReleasedOnce h c (Object.exec E ev o t).2.1 (Object.exec E ev o t).2.2 := by
  cases o with
  | destroyed s =>
    rw [exec_destroyed E ev s t]
    exact hi
  | alive s =>
    obtain ⟨hs, hc⟩ := hi
    cases ev with
    | call op =>
      have hl := exec_live E op s t h hs
      exact ⟨hl.1, by rw [← hc]; exact hl.2⟩
    | release =>
      simp [Object.exec, Statement.destroy, hs, ReleasedOnce, hc]

/-- A sequence of events keeps the invariant. -/
theorem run_keeps_ReleasedOnce (E : Engine) (h c : Nat) (evs : List Event) :
    ∀ (o : Object) (t : Trace), ReleasedOnce h c o t →
      ReleasedOnce h c (Object.run E evs o t).2.1 (Object.run E evs o t).2.2 := by
  induction evs with
  | nil => intro o t hi; exact hi
  | cons ev evs ih =>
    intro o t hi
    have hk := exec_keeps_ReleasedOnce E h c ev o t hi
    rw [Object.run]
    rcases hx : Object.exec E ev o t with ⟨b, o1, t1⟩
    rw [hx] at hk
    cases b
    · exact ih o1 t1 hk
    · exact hk

/-- A run that did not crash goes on with the events that follow. -/
theorem run_append (E : Engine) (rest : List Event) (pre : List Event) :
    ∀ (o : Object) (t : Trace), (Object.run E pre o t).1 = false →
      Object.run E (pre ++ rest) o t
        = Object.run E rest (Object.run E pre o t).2.1 (Object.run E pre o t).2.2 := by
  induction pre with
  | nil => intro o t _; rfl
  | cons ev pre ih =>
    intro o t hpre
    rw [List.cons_append, Object.run]
    rw [Object.run] at hpre ⊢
    rcases hx : Object.exec E ev o t with ⟨b, o1, t1⟩
    rw [hx] at hpre
    cases b
    · exact ih o1 t1 hpre
    · simp at hpre

/-- C6 as stated fails: releasing twice does not have the effect of
releasing once.  The first destructor call on a live statement returns and
ends the lifetime of the object; the second call is undefined behaviour, so
the run with two releases crashes where the run with one does not. -/
theorem release_twice_is_undefined :
    (Object.run (scriptEngine [] none) [Event.release]
        (Object.alive (sampleStatement false false)) []).1 = false
      ∧ (Object.run (scriptEngine [] none) [Event.release, Event.release]
        (Object.alive (sampleStatement false false)) []).1 = true
      ∧ (Statement.destroy
          (Statement.destroy (Object.alive (sampleStatement false false)) []).2.1
          (Statement.destroy (Object.alive (sampleStatement false false)) []).2.2).1
        = Outcome.undefinedBehaviour
      ∧ Object.run (scriptEngine [] none) [Event.release, Event.release]
          (Object.alive (sampleStatement false false)) []
        ≠ Object.run (scriptEngine [] none) [Event.release]
          (Object.alive (sampleStatement false false)) [] := by
  decide

/-- C6, amended: on an object within its lifetime the destructor calls the
engine's finalize exactly when the handle is still present, its body leaves
the handle null, and it ends the lifetime of the object, so that a second
release is undefined behaviour and not a repetition without effect.  Over
any sequence of events on a statement with a live handle, calls that throw
included, finalize is invoked on the handle at most once; and when the
sequence reaches a `release` (the events before it did not crash the
process), it is invoked exactly once. -/
theorem release_finalizes_exactly_once (E : Engine) (s : Statement) (t : Trace) (h : Nat)
    (evs pre post : List Event) (hs : s.stmt = some h)
    (hpre : (Object.run E pre (Object.alive s) t).1 = false) :
    Statement.destroy (Object.alive s) t
        = (Outcome.ret (), Object.destroyed { s with stmt := none }, t ++ [Call.finalize h])
      ∧ (∀ (s0 : Statement) (t0 : Trace), s0.stmt = none →
          Statement.destroy (Object.alive s0) t0 = (Outcome.ret (), Object.destroyed s0, t0))
      ∧ (∀ (s0 : Statement) (t0 : Trace),
          (Statement.destroy (Object.alive s0) t0).2.1.members.stmt = none)
      ∧ (∀ (s0 : Statement) (t0 : Trace),
          Statement.destroy (Object.destroyed s0) t0
            = (Outcome.undefinedBehaviour, Object.destroyed s0, t0))
      ∧ (Object.run E evs (Object.alive s) t).2.2.count (Call.finalize h)
          ≤ t.count (Call.finalize h) + 1
      ∧ (Object.run E (pre ++ Event.release :: post) (Object.alive s) t).2.2.count
            (Call.finalize h)
          = t.count (Call.finalize h) + 1 := by
  have hi : ReleasedOnce h (t.count (Call.finalize h)) (Object.alive s) t := ⟨hs, rfl⟩
  refine ⟨by simp [Statement.destroy, hs], fun s0 t0 h0 => by simp [Statement.destroy, h0],
    fun s0 t0 => ?_, fun s0 t0 => rfl, ?_, ?_⟩
  · cases h0 : s0.stmt <;> simp [Statement.destroy, h0, Object.members]
  · have hk := run_keeps_ReleasedOnce E h _ evs (Object.alive s) t hi
    rcases hx : Object.run E evs (Object.alive s) t with ⟨b, o1, t1⟩
    rw [hx] at hk
    cases o1 with
    | alive s1 => rw [hk.2]; exact Nat.le_succ _
    | destroyed s1 => rw [hk.2]
  · rw [run_append E (Event.release :: post) pre (Object.alive s) t hpre]
    have hp := run_keeps_ReleasedOnce E h _ pre (Object.alive s) t hi
    rcases hx : Object.run E pre (Object.alive s) t with ⟨b, o1, t1⟩
    rw [hx] at hp
    cases o1 with
    | destroyed s1 =>
      rw [run_destroyed E (Event.release :: post) s1 t1]
      exact hp.2
    | alive s1 =>
      obtain ⟨hs1, hc1⟩ := hp
      have hrel : Object.exec E Event.release (Object.alive s1) t1
          = (false, Object.destroyed { s1 with stmt := none }, t1 ++ [Call.finalize h]) := by
        simp [Object.exec, Statement.destroy, hs1, Outcome.crashed]
      rw [Object.run, hrel]
      simp only
      rw [run_destroyed E post _ _]
      simp [hc1]

/-- Witness of C6 (amended): a bind that is refused, a step that throws and
then the release: one finalize call on the handle. -/
theorem release_finalizes_exactly_once_witness :
    (Object.run (scriptEngine [SQLITE_BUSY] none)
        ([Event.call (Op.bindInt 99 5), Event.call Op.step] ++ Event.release :: [])
        (Object.alive (sampleStatement false false)) []).2.2.count (Call.finalize 7)
      = ([] : Trace).count (Call.finalize 7) + 1 :=
  (release_finalizes_exactly_once (scriptEngine [SQLITE_BUSY] none) (sampleStatement false false)
    [] 7 [Event.call Op.step, Event.release] [Event.call (Op.bindInt 99 5), Event.call Op.step] []
    rfl (by decide)).2.2.2.2.2

end DDB
